import Mathlib

/-!
Verification of the grblHAL laser plugins (`ppi.c`, the PPI pulse scheduler,
and the CO2 laser overdrive plugin) against their specification.

Modelling conventions:
* C `float` values are modelled as exact rationals (`ℚ`); every property
  verified here is a control-flow / ordering / reset property that does not
  depend on rounding of float arithmetic.
* C machine integers (`uint_fast16_t`, `uint16_t`) are modelled as `Nat`;
  float-to-unsigned conversion is truncation toward zero, faithful on the
  in-range non-negative values (out-of-range conversion is undefined in C).
* Function pointers (the grblHAL hook tables) are modelled by the inductive
  `Handler`: the plugin's own decorated handlers are distinguished
  constructors, any other handler is `Handler.base n`.
* Calls the plugins make into external collaborators (the laser driver's
  `pulse_on` / `set_laser_overdrive`, forwarding to a previously installed
  handler, chaining to a previously registered event handler) are recorded
  as an output trace (`List Output`).
-/

namespace GrblLaser

/-- A function-pointer value in one of the hook tables.  The plugin's own
decorated handlers are distinguished constructors; `base n` stands for any
externally owned handler. -/
inductive Handler where
  | base : Nat → Handler
  | hookWakeUp : Handler
  | hookPulseStart : Handler
  | hookUpdatePWM : Handler
  | hookUpdateRPM : Handler
deriving DecidableEq, Repr

/-- The user M-codes the two plugins react to; `other n` is any further
M-code (handled, if at all, by chained handlers). -/
inductive MCode where
  | LaserPPI_Enable : MCode
  | LaserPPI_Rate : MCode
  | LaserPPI_PulseLength : MCode
  | Laser_Overdrive : MCode
  | other : Nat → MCode
deriving DecidableEq, Repr

/-- The status codes produced by the validation handlers. -/
inductive Status where
  | OK : Status
  | Unhandled : Status
  | GcodeValueWordMissing : Status
  | GcodeUnsupportedCommand : Status
  | GcodeValueOutOfRange : Status
deriving DecidableEq, Repr

/-- Result of a `user_mcode.check` handler (`user_mcode_type_t`). -/
inductive UserMCodeType where
  | Normal : UserMCodeType
  | Unsupported : UserMCodeType
deriving DecidableEq, Repr

/-- The fields of `parser_block_t` the plugins read or write: the M-code,
the `P` word presence flag, its value and the sync-request flag. -/
structure ParserBlock where
  user_mcode : MCode
  word_p : Bool
  value_p : ℚ
  user_mcode_sync : Bool
deriving DecidableEq, Repr

/-- Externally visible effects of running a plugin handler. -/
inductive Output where
  | pulseOn : Nat → Output
  | fwdWakeUp : Handler → Output
  | fwdPulseStart : Handler → Output
  | fwdUpdatePWM : Handler → Nat → Output
  | fwdUpdateRPM : Handler → ℚ → Output
  | chainExecute : Bool → MCode → Output
  | setLaserOverdrive : ℚ → Output
  | chainSpindleSelected : Output
  | chainSettingsChanged : Output
  | chainProgramCompleted : Output
  | chainDriverReset : Output
  | chainParserInit : Output
  | nullDeref : Output
deriving DecidableEq, Repr

/-- C float-to-unsigned conversion: truncation toward zero.  Faithful for
non-negative in-range values; for negative or out-of-range values the C
conversion is undefined behaviour. -/
def truncUnsigned (q : ℚ) : Nat := (⌊q⌋).toNat

/-- Modelled from the spec: `gc_laser_ppi_enable` lives in the external
grblHAL core (not in this repository); the spec treats the enable/disable
command as unconditionally installing or removing the scheduler hooks, so
the core call is modelled as always accepting (returning `Status_OK`). -/
def gcAccept : Nat → Nat → Bool := fun _ _ => true

/-! ## The PPI plugin (`ppi.c`) -/

namespace PPI

/-- The file-static `laser` struct of `ppi.c`. -/
structure LaserVars where
  ppi : Nat
  ppi_distance : ℚ
  ppi_pos : ℚ
  next_pos : ℚ
  pulse_length : Nat
  is_on : Bool
deriving DecidableEq, Repr

/-- The two stepper entries of the HAL table that `enable_ppi` swaps. -/
structure HalStepper where
  wake_up : Handler
  pulse_start : Handler
deriving DecidableEq, Repr

/-- The handler fields and capability bits of a `spindle_ptrs_t` as read and
written by `ppi.c`. -/
structure Spindle where
  cap_laser : Bool
  has_pulse_on : Bool
  update_pwm : Option Handler
  update_rpm : Option Handler
deriving DecidableEq, Repr

/-- The whole mutable state of `ppi.c`: the `laser` struct, the HAL stepper
table, the capability bit, the saved-handler statics (`NULL` is `none`),
the `mm_per_step` static of `stepperPulseStartPPI` and the `ppi_on` static
of `userMCodeExecute`. -/
structure State where
  laser : LaserVars
  hal : HalStepper
  cap_laser_ppi_mode : Bool
  has_ppi_spindle : Bool
  stepper_wake_up : Option Handler
  stepper_pulse_start : Option Handler
  spindle_update_pwm : Option Handler
  spindle_update_rpm : Option Handler
  mm_per_step : ℚ
  ppi_on : Bool
deriving DecidableEq, Repr

/-- The state right after `ppi_init`: the `laser` initializer of `ppi.c`
(600 ppi, 25.4/600 mm distance, 1500 µs pulses, off), zero-initialized
statics, and the given pre-existing HAL stepper handlers. -/
def initState (w p : Handler) : State where
  laser := { ppi := 600, ppi_distance := (127 : ℚ) / 3000, ppi_pos := 0,
             next_pos := 0, pulse_length := 1500, is_on := false }
  hal := { wake_up := w, pulse_start := p }
  cap_laser_ppi_mode := false
  has_ppi_spindle := false
  stepper_wake_up := none
  stepper_pulse_start := none
  spindle_update_pwm := none
  spindle_update_rpm := none
  mm_per_step := 0
  ppi_on := false

/-- `stepperWakeUp`: reset both scheduler distances, then forward to the
saved wake-up handler. -/
def stepperWakeUp (s : State) : State × List Output :=
  ({ s with laser := { s.laser with ppi_pos := 0, next_pos := 0 } },
   match s.stepper_wake_up with
   | some h => [Output.fwdWakeUp h]
   | none => [Output.nullDeref])

/-- The fields of a `stepper_t` event read by `stepperPulseStartPPI`:
the new-block flag, the block's `steps_per_mm`, and whether the step
output bits are non-zero. -/
structure StepperEv where
  new_block : Bool
  steps_per_mm : ℚ
  step_bits : Bool
deriving DecidableEq, Repr

/-- `stepperPulseStartPPI`: while the laser is logically on, lazily cache
`mm_per_step` on a new block, accumulate distance on steps with non-zero
step bits, and fire one pulse when the accumulated position reaches the
next trigger position; always forward to the saved pulse-start handler. -/
def stepperPulseStartPPI (s : State) (ev : StepperEv) : State × List Output :=
  let fwd : List Output :=
    match s.stepper_pulse_start with
    | some h => [Output.fwdPulseStart h]
    | none => [Output.nullDeref]
  if s.laser.is_on then
    let s1 := if ev.new_block then { s with mm_per_step := 1 / ev.steps_per_mm } else s
    if ev.step_bits then
      let pos := s1.laser.ppi_pos + s1.mm_per_step
      if s1.laser.next_pos ≤ pos then
        ({ s1 with laser := { s1.laser with
              ppi_pos := pos,
              next_pos := s1.laser.next_pos + s1.laser.ppi_distance } },
         Output.pulseOn s1.laser.pulse_length :: fwd)
      else
        ({ s1 with laser := { s1.laser with ppi_pos := pos } }, fwd)
    else (s1, fwd)
  else (s, fwd)

/-- `ppiUpdatePWM`: on an off-to-on transition reset the scheduler
distances; track the on/off state; forward the unmodified PWM value to the
saved update handler; finally, when the scheduler hooks are installed
(`stepper_wake_up` static non-NULL), fire a pulse. -/
def ppiUpdatePWM (s : State) (pwm : Nat) : State × List Output :=
  let s1 := if !s.laser.is_on && decide (0 < pwm) then
      { s with laser := { s.laser with ppi_pos := 0, next_pos := 0 } }
    else s
  let s2 := { s1 with laser := { s1.laser with is_on := decide (0 < pwm) } }
  let fwd : List Output :=
    match s.spindle_update_pwm with
    | some h => [Output.fwdUpdatePWM h pwm]
    | none => [Output.nullDeref]
  (s2, fwd ++ (if s.stepper_wake_up.isSome then [Output.pulseOn s.laser.pulse_length] else []))

/-- `ppiUpdateRPM`: as `ppiUpdatePWM` but for the RPM entry point and
without the trailing pulse. -/
def ppiUpdateRPM (s : State) (rpm : ℚ) : State × List Output :=
  let s1 := if !s.laser.is_on && decide (0 < rpm) then
      { s with laser := { s.laser with ppi_pos := 0, next_pos := 0 } }
    else s
  let s2 := { s1 with laser := { s1.laser with is_on := decide (0 < rpm) } }
  let fwd : List Output :=
    match s.spindle_update_rpm with
    | some h => [Output.fwdUpdateRPM h rpm]
    | none => [Output.nullDeref]
  (s2, fwd)

/-- `enable_ppi`: ask the core (`gc_laser_ppi_enable`, modelled by the
oracle `gc`) to switch parser PPI state; on success install the stepper
hooks when enabling and none are installed, or restore the saved handlers
when disabling and hooks are installed. -/
def enable_ppi (gc : Nat → Nat → Bool) (turnOn : Bool) (s : State) : State :=
  if gc (if turnOn then s.laser.ppi else 0) s.laser.pulse_length then
    if turnOn ∧ s.stepper_wake_up = none then
      { s with
        hal := { wake_up := Handler.hookWakeUp, pulse_start := Handler.hookPulseStart },
        stepper_wake_up := some s.hal.wake_up,
        stepper_pulse_start := some s.hal.pulse_start }
    else if ¬turnOn ∧ s.stepper_wake_up ≠ none then
      { s with
        hal := { wake_up := s.stepper_wake_up.getD s.hal.wake_up,
                 pulse_start := s.stepper_pulse_start.getD s.hal.pulse_start },
        stepper_wake_up := none,
        stepper_pulse_start := none }
    else s
  else s

/-- `userMCodeCheck` of `ppi.c`: claim the three PPI M-codes, chain the
rest (`prev` is the previously registered check handler, `none` when NULL). -/
def userMCodeCheck (prev : Option (MCode → UserMCodeType)) (mcode : MCode) : UserMCodeType :=
  if mcode = MCode.LaserPPI_Enable ∨ mcode = MCode.LaserPPI_Rate
      ∨ mcode = MCode.LaserPPI_PulseLength then
    UserMCodeType.Normal
  else
    match prev with
    | some f => f mcode
    | none => UserMCodeType.Unsupported

/-- `userMCodeValidate` of `ppi.c`: `cap` is `hal.driver_cap.laser_ppi_mode`;
returns the status and the possibly mutated parser block. -/
def userMCodeValidate (cap : Bool) (prev : Option (ParserBlock → Status × ParserBlock))
    (gc_block : ParserBlock) : Status × ParserBlock :=
  let r : Status × ParserBlock :=
    match gc_block.user_mcode with
    | MCode.LaserPPI_Enable =>
        if !cap then (Status.GcodeUnsupportedCommand, gc_block)
        else if gc_block.word_p then (Status.OK, { gc_block with word_p := false })
        else (Status.GcodeValueWordMissing, gc_block)
    | MCode.LaserPPI_Rate =>
        if !cap then (Status.GcodeUnsupportedCommand, gc_block)
        else if gc_block.word_p then
          (Status.OK, { gc_block with word_p := false, user_mcode_sync := true })
        else (Status.GcodeValueWordMissing, gc_block)
    | MCode.LaserPPI_PulseLength =>
        if !cap then (Status.GcodeUnsupportedCommand, gc_block)
        else if gc_block.word_p then
          (Status.OK, { gc_block with word_p := false, user_mcode_sync := true })
        else (Status.GcodeValueWordMissing, gc_block)
    | _ => (Status.Unhandled, gc_block)
  if r.1 = Status.Unhandled then
    match prev with
    | some f => f gc_block
    | none => r
  else r

/-- `userMCodeExecute` of `ppi.c`: outside check mode handle the three PPI
M-codes (updating the `ppi_on` static, the rate and derived distance, the
pulse length, and re-evaluating `enable_ppi`); chain unhandled M-codes to
the previous execute handler (`prevExec` records whether one is installed). -/
def userMCodeExecute (gc : Nat → Nat → Bool) (prevExec : Bool) (checkMode : Bool)
    (s : State) (gc_block : ParserBlock) : State × List Output :=
  if checkMode then
    (s, [])
  else
    match gc_block.user_mcode with
    | MCode.LaserPPI_Enable =>
        let s1 := { s with ppi_on := gc_block.value_p ≠ 0 }
        (enable_ppi gc (s1.ppi_on ∧ 0 < s1.laser.ppi ∧ 0 < s1.laser.pulse_length) s1, [])
    | MCode.LaserPPI_Rate =>
        let newppi := truncUnsigned gc_block.value_p
        let s1 := { s with laser := { s.laser with
            ppi := newppi,
            ppi_distance := if newppi ≠ 0 then (127 : ℚ) / (5 * newppi) else s.laser.ppi_distance } }
        (enable_ppi gc (s1.ppi_on ∧ 0 < s1.laser.ppi ∧ 0 < s1.laser.pulse_length) s1, [])
    | MCode.LaserPPI_PulseLength =>
        let s1 := { s with laser := { s.laser with pulse_length := truncUnsigned gc_block.value_p } }
        (enable_ppi gc (s1.ppi_on ∧ 0 < s1.laser.ppi ∧ 0 < s1.laser.pulse_length) s1, [])
    | m =>
        (s, if prevExec then [Output.chainExecute checkMode m] else [])

/-- `onSpindleSelected` of `ppi.c`: set the PPI capability bit from the
spindle's laser capability and `pulse_on` entry; on a compatible spindle
cache it and wrap its PWM/RPM update entries; finally chain to the previous
handler (`chainPrev` records whether one is installed). -/
def onSpindleSelected (s : State) (sp : Spindle) (chainPrev : Bool) :
    State × Spindle × List Output :=
  let chain : List Output := if chainPrev then [Output.chainSpindleSelected] else []
  if sp.cap_laser ∧ sp.has_pulse_on then
    let s1 :=
      match sp.update_pwm with
      | some h => { s with spindle_update_pwm := some h }
      | none => s
    let sp1 :=
      match sp.update_pwm with
      | some _ => { sp with update_pwm := some Handler.hookUpdatePWM }
      | none => sp
    let s2 :=
      match sp1.update_rpm with
      | some h => { s1 with spindle_update_rpm := some h }
      | none => s1
    let sp2 :=
      match sp1.update_rpm with
      | some _ => { sp1 with update_rpm := some Handler.hookUpdateRPM }
      | none => sp1
    ({ s2 with cap_laser_ppi_mode := true, has_ppi_spindle := true }, sp2, chain)
  else
    ({ s with cap_laser_ppi_mode := false, has_ppi_spindle := false }, sp, chain)

/-- `onParserInit` of `ppi.c`: disable PPI, then chain. -/
def onParserInit (gc : Nat → Nat → Bool) (s : State) (chainPrev : Bool) :
    State × List Output :=
  (enable_ppi gc false s, if chainPrev then [Output.chainParserInit] else [])

/-- `onProgramCompleted` of `ppi.c`: outside check mode disable PPI
(removing the scheduler hooks), then chain. -/
def onProgramCompleted (gc : Nat → Nat → Bool) (s : State) (check_mode : Bool)
    (chainPrev : Bool) : State × List Output :=
  (if ¬check_mode then enable_ppi gc false s else s,
   if chainPrev then [Output.chainProgramCompleted] else [])

end PPI

/-! ## The CO2 laser overdrive plugin -/

namespace OVD

/-- The fields of a `spindle_pwm_t` context read by the overdrive plugin:
the `rpm_controlled` flag and whether `set_laser_overdrive` is non-NULL. -/
structure SpindlePwm where
  rpm_controlled : Bool
  has_set_laser_overdrive : Bool
deriving DecidableEq, Repr

/-- The fields of a `spindle_ptrs_t` read by the overdrive plugin: the laser
capability bit and the (possibly NULL) PWM context. -/
structure Spindle where
  cap_laser : Bool
  pwm : Option SpindlePwm
deriving DecidableEq, Repr

/-- The mutable state of the overdrive plugin: the cached compatible PWM
context (`laser`, NULL is `none`) and the cached active spindle. -/
structure State where
  laser : Option SpindlePwm
  active_spindle : Option Spindle
deriving DecidableEq, Repr

/-- The state right after `laser_ovd_init`: both caches NULL. -/
def initState : State where
  laser := none
  active_spindle := none

/-- The compatibility re-evaluation expression used by `onSpindleSelected`
and `onSettingsChanged`: the spindle's PWM context when it is a laser with a
PWM context providing `set_laser_overdrive`, else NULL. -/
def laserFor (sp : Spindle) : Option SpindlePwm :=
  match sp.pwm with
  | some p => if sp.cap_laser ∧ p.has_set_laser_overdrive then some p else none
  | none => none

/-- `onSpindleSelected` of the overdrive plugin: chain first, then cache the
spindle and re-evaluate the compatible-context cache. -/
def onSpindleSelected (_s : State) (sp : Spindle) (chainPrev : Bool) :
    State × List Output :=
  ({ laser := laserFor sp, active_spindle := some sp },
   if chainPrev then [Output.chainSpindleSelected] else [])

/-- `onSettingsChanged` of the overdrive plugin: chain first, then, when a
spindle is cached, re-evaluate the compatible-context cache from it. -/
def onSettingsChanged (s : State) (chainPrev : Bool) : State × List Output :=
  (match s.active_spindle with
   | some sp => { s with laser := laserFor sp }
   | none => s,
   if chainPrev then [Output.chainSettingsChanged] else [])

/-- `onProgramCompleted` of the overdrive plugin: when a compatible context
is cached, force the overdrive to 0 (in check mode too); then chain. -/
def onProgramCompleted (s : State) (_check_mode : Bool) (chainPrev : Bool) :
    List Output :=
  (match s.laser with
   | some _ => [Output.setLaserOverdrive 0]
   | none => []) ++
  (if chainPrev then [Output.chainProgramCompleted] else [])

/-- `driverReset` of the overdrive plugin: chain to the saved driver reset
first, then, when a compatible context is cached, force the overdrive to 0. -/
def driverReset (s : State) : List Output :=
  Output.chainDriverReset ::
  (match s.laser with
   | some _ => [Output.setLaserOverdrive 0]
   | none => [])

/-- The capability test of the overdrive plugin's check handler:
`!!laser && laser->flags.rpm_controlled`. -/
def hasCap (s : State) : Bool :=
  match s.laser with
  | some p => p.rpm_controlled
  | none => false

/-- `userMCodeCheck` of the overdrive plugin: claim `Laser_Overdrive` when a
compatible context is cached and it is `rpm_controlled`; chain the rest. -/
def userMCodeCheck (s : State) (prev : Option (MCode → UserMCodeType))
    (mcode : MCode) : UserMCodeType :=
  if decide (mcode = MCode.Laser_Overdrive) && hasCap s then
    UserMCodeType.Normal
  else
    match prev with
    | some f => f mcode
    | none => UserMCodeType.Unsupported

/-- `userMCodeValidate` of the overdrive plugin: for `Laser_Overdrive`
demand the `P` word and a non-negative value; chain other M-codes. -/
def userMCodeValidate (prev : Option (ParserBlock → Status × ParserBlock))
    (gc_block : ParserBlock) : Status × ParserBlock :=
  if gc_block.user_mcode = MCode.Laser_Overdrive then
    if gc_block.word_p then
      if 0 ≤ gc_block.value_p then (Status.OK, { gc_block with word_p := false })
      else (Status.GcodeValueOutOfRange, gc_block)
    else (Status.GcodeValueWordMissing, gc_block)
  else
    match prev with
    | some f => f gc_block
    | none => (Status.Unhandled, gc_block)

/-- `userMCodeExecute` of the overdrive plugin: call
`laser->set_laser_overdrive(laser, P)` for `Laser_Overdrive` (a NULL
dereference when no context is cached, which the check stage prevents);
chain other M-codes.  It mutates no plugin state. -/
def userMCodeExecute (s : State) (prevExec : Bool) (checkMode : Bool)
    (gc_block : ParserBlock) : List Output :=
  if gc_block.user_mcode = MCode.Laser_Overdrive then
    match s.laser with
    | some _ => [Output.setLaserOverdrive gc_block.value_p]
    | none => [Output.nullDeref]
  else if prevExec then [Output.chainExecute checkMode gc_block.user_mcode]
  else []

/-- Modelled from the spec: the external parser's dispatch of a user M-code
(`gc.c`, not in this repository).  The check stage rejects an unsupported
M-code as `UnsupportedCommand`; otherwise validation runs, and execution
runs only on `Status.OK`, so a rejected command has no effect. -/
def dispatch (s : State) (checkMode : Bool) (gc_block : ParserBlock) :
    Status × State × List Output :=
  if userMCodeCheck s none gc_block.user_mcode = UserMCodeType.Unsupported then
    (Status.GcodeUnsupportedCommand, s, [])
  else
    let v := userMCodeValidate none gc_block
    if v.1 = Status.OK then (Status.OK, s, userMCodeExecute s false checkMode v.2)
    else (v.1, s, [])

end OVD

namespace PPI

/-- Modelled from the spec: the external parser's dispatch of a user M-code
(`gc.c`, not in this repository) through the PPI plugin's handlers.  The
check stage rejects an unsupported M-code as `UnsupportedCommand`;
otherwise validation runs, and execution runs only on `Status.OK`, so a
rejected command has no effect. -/
def dispatch (gc : Nat → Nat → Bool) (cap : Bool) (checkMode : Bool)
    (s : State) (gc_block : ParserBlock) : Status × State × List Output :=
  if userMCodeCheck none gc_block.user_mcode = UserMCodeType.Unsupported then
    (Status.GcodeUnsupportedCommand, s, [])
  else
    let v := userMCodeValidate cap none gc_block
    if v.1 = Status.OK then
      let r := userMCodeExecute gc false checkMode s v.2
      (Status.OK, r.1, r.2)
    else (v.1, s, [])

/-! ### Trace semantics for the PPI plugin

The environment (motion engine, spindle core, parser) delivers events to the
installed handler tables; an event reaches the plugin's decorated handler
exactly when that handler is currently installed in the corresponding table
slot, and reaches the previously installed handler otherwise. -/

/-- The plugin state together with the active spindle's handler table. -/
structure Sys where
  ppi : State
  sp : Spindle
deriving DecidableEq, Repr

/-- An environment event delivered to the hook tables. -/
inductive Event where
  | select : Event
  | mcode : ParserBlock → Event
  | wakeUp : Event
  | step : StepperEv → Event
  | pwm : Nat → Event
  | rpm : ℚ → Event
  | programCompleted : Bool → Event
  | parserInit : Event
deriving DecidableEq, Repr

/-- One environment event: dispatch through the current hook tables (the
decorated handler runs only when installed; otherwise the resident base
handler is invoked directly). -/
def sysStep (s : Sys) (e : Event) : Sys × List Output :=
  match e with
  | Event.select =>
      let r := onSpindleSelected s.ppi s.sp false
      ({ ppi := r.1, sp := r.2.1 }, r.2.2)
  | Event.mcode blk =>
      let r := userMCodeExecute gcAccept false false s.ppi blk
      ({ s with ppi := r.1 }, r.2)
  | Event.wakeUp =>
      if s.ppi.hal.wake_up = Handler.hookWakeUp then
        let r := stepperWakeUp s.ppi
        ({ s with ppi := r.1 }, r.2)
      else (s, [Output.fwdWakeUp s.ppi.hal.wake_up])
  | Event.step ev =>
      if s.ppi.hal.pulse_start = Handler.hookPulseStart then
        let r := stepperPulseStartPPI s.ppi ev
        ({ s with ppi := r.1 }, r.2)
      else (s, [Output.fwdPulseStart s.ppi.hal.pulse_start])
  | Event.pwm v =>
      if s.sp.update_pwm = some Handler.hookUpdatePWM then
        let r := ppiUpdatePWM s.ppi v
        ({ s with ppi := r.1 }, r.2)
      else (s, [])
  | Event.rpm v =>
      if s.sp.update_rpm = some Handler.hookUpdateRPM then
        let r := ppiUpdateRPM s.ppi v
        ({ s with ppi := r.1 }, r.2)
      else (s, [])
  | Event.programCompleted check =>
      let r := onProgramCompleted gcAccept s.ppi check false
      ({ s with ppi := r.1 }, r.2)
  | Event.parserInit =>
      let r := onParserInit gcAccept s.ppi false
      ({ s with ppi := r.1 }, r.2)

/-- Run a sequence of environment events, accumulating the outputs. -/
def sysRun (s : Sys) : List Event → Sys × List Output
  | [] => (s, [])
  | e :: es =>
      let r := sysStep s e
      let r2 := sysRun r.1 es
      (r2.1, r.2 ++ r2.2)

end PPI

/-! ## Helper notions and concrete fixtures -/

/-- Number of driver pulse commands in an output trace. -/
def countPulse : List Output → Nat
  | [] => 0
  | Output.pulseOn _ :: l => countPulse l + 1
  | _ :: l => countPulse l

@[simp] theorem countPulse_nil : countPulse [] = 0 := rfl

@[simp] theorem countPulse_pulse (n : Nat) (l : List Output) :
    countPulse (Output.pulseOn n :: l) = countPulse l + 1 := rfl

@[simp] theorem countPulse_fwdPulseStart (h : Handler) (l : List Output) :
    countPulse (Output.fwdPulseStart h :: l) = countPulse l := rfl

@[simp] theorem countPulse_nullDeref (l : List Output) :
    countPulse (Output.nullDeref :: l) = countPulse l := rfl

/-- A compatible laser spindle whose pre-existing update handlers are the
externally owned handlers 2 and 3. -/
def sp0 : PPI.Spindle where
  cap_laser := true
  has_pulse_on := true
  update_pwm := some (Handler.base 2)
  update_rpm := some (Handler.base 3)

/-- The initial system state: freshly initialized plugin, spindle `sp0` not
yet selected, base stepper handlers 0 and 1. -/
def sys0 : PPI.Sys where
  ppi := PPI.initState (Handler.base 0) (Handler.base 1)
  sp := sp0

/-- A parser block carrying the pulsed-mode enable/disable command with the
given P value (as it reaches the execute handler). -/
def enBlk (v : ℚ) : ParserBlock where
  user_mcode := MCode.LaserPPI_Enable
  word_p := false
  value_p := v
  user_mcode_sync := false

/-- An event trace that selects the spindle, turns pulsed mode on, wakes the
stepper, turns the laser on, runs one motion step, then disables and
re-enables pulsed mode with the laser still logically on and motion already
in flight (no wake-up before the next step). -/
def c7trace : List PPI.Event :=
  [PPI.Event.select, PPI.Event.mcode (enBlk 1), PPI.Event.wakeUp,
   PPI.Event.pwm 5, PPI.Event.step ⟨true, 1, true⟩,
   PPI.Event.mcode (enBlk 0), PPI.Event.mcode (enBlk 1)]

/-! ## Helper lemmas about `enable_ppi` -/

theorem enable_ppi_preserves_laser (gc : Nat → Nat → Bool) (b : Bool) (s : PPI.State) :
    (PPI.enable_ppi gc b s).laser = s.laser := by
  unfold PPI.enable_ppi
  split_ifs <;> rfl

theorem enable_ppi_preserves_ppi_on (gc : Nat → Nat → Bool) (b : Bool) (s : PPI.State) :
    (PPI.enable_ppi gc b s).ppi_on = s.ppi_on := by
  unfold PPI.enable_ppi
  split_ifs <;> rfl

theorem enable_ppi_false_id (s : PPI.State) (h : s.stepper_wake_up = none) :
    PPI.enable_ppi gcAccept false s = s := by
  unfold PPI.enable_ppi gcAccept
  simp [h]

theorem enable_ppi_false_none (s : PPI.State)
    (hc : s.stepper_wake_up = none ↔ s.stepper_pulse_start = none) :
    (PPI.enable_ppi gcAccept false s).stepper_wake_up = none
    ∧ (PPI.enable_ppi gcAccept false s).stepper_pulse_start = none := by
  unfold PPI.enable_ppi gcAccept
  cases h : s.stepper_wake_up <;> simp_all

/-! ## The claims -/

/-- Claim C2: on a step event delivered while pulsed mode is active
(`laser.on`, non-zero step bits), `mm_per_step` is added to the distance
accumulator; exactly one `pulse_on(pulse_length)` call is issued iff the
accumulator has reached or exceeded the next trigger distance, in which
case the trigger advances by `ppi_distance`; at most one pulse is ever
issued per step event. -/
theorem C2_step_pulse (s : PPI.State) (ev : PPI.StepperEv)
    (_hs : 0 < ev.steps_per_mm) :
    countPulse (PPI.stepperPulseStartPPI s ev).2 ≤ 1
    ∧ (s.laser.is_on = true → ev.step_bits = true →
       (PPI.stepperPulseStartPPI s ev).1.laser.ppi_pos
          = s.laser.ppi_pos + (if ev.new_block then 1 / ev.steps_per_mm else s.mm_per_step)
       ∧ countPulse (PPI.stepperPulseStartPPI s ev).2
          = (if s.laser.next_pos ≤ s.laser.ppi_pos
                + (if ev.new_block then 1 / ev.steps_per_mm else s.mm_per_step) then 1 else 0)
       ∧ (s.laser.next_pos ≤ s.laser.ppi_pos
            + (if ev.new_block then 1 / ev.steps_per_mm else s.mm_per_step) →
          Output.pulseOn s.laser.pulse_length ∈ (PPI.stepperPulseStartPPI s ev).2)
       ∧ (PPI.stepperPulseStartPPI s ev).1.laser.next_pos
          = (if s.laser.next_pos ≤ s.laser.ppi_pos
                + (if ev.new_block then 1 / ev.steps_per_mm else s.mm_per_step)
             then s.laser.next_pos + s.laser.ppi_distance else s.laser.next_pos)) := by
  cases hsp : s.stepper_pulse_start <;>
    cases hon : s.laser.is_on <;>
      cases hnb : ev.new_block <;>
        cases hb : ev.step_bits <;>
          simp [PPI.stepperPulseStartPPI, hsp, hon, hnb, hb] <;>
            split_ifs with hcmp <;>
              simp_all

/-- Witness for C2 at a concrete on-state and step event. -/
theorem C2_step_pulse_witness :
    countPulse (PPI.stepperPulseStartPPI
        { (PPI.initState (Handler.base 0) (Handler.base 1)) with
            laser := { ppi := 600, ppi_distance := (127 : ℚ) / 3000, ppi_pos := 0,
                       next_pos := 0, pulse_length := 1500, is_on := true } }
        ⟨true, 1, true⟩).2 ≤ 1 :=
  (C2_step_pulse
      { (PPI.initState (Handler.base 0) (Handler.base 1)) with
          laser := { ppi := 600, ppi_distance := (127 : ℚ) / 3000, ppi_pos := 0,
                     next_pos := 0, pulse_length := 1500, is_on := true } }
      ⟨true, 1, true⟩ (by norm_num)).1

/-- Claim C9: the set-pulse-rate command truncates its value toward zero to
an unsigned integer; a value below 1 yields rate 0 and deactivates pulsed
mode; with truncated rate 0 the derived `ppi_distance` keeps its previous
value. -/
theorem C9_rate_truncation (s : PPI.State) (blk : ParserBlock)
    (hm : blk.user_mcode = MCode.LaserPPI_Rate) (_hv : 0 ≤ blk.value_p)
    (hc : s.stepper_wake_up = none ↔ s.stepper_pulse_start = none) :
    (PPI.userMCodeExecute gcAccept false false s blk).1.laser.ppi
        = truncUnsigned blk.value_p
    ∧ (blk.value_p < 1 →
        (PPI.userMCodeExecute gcAccept false false s blk).1.laser.ppi = 0
        ∧ (PPI.userMCodeExecute gcAccept false false s blk).1.stepper_wake_up = none
        ∧ (PPI.userMCodeExecute gcAccept false false s blk).1.stepper_pulse_start = none)
    ∧ (truncUnsigned blk.value_p = 0 →
        (PPI.userMCodeExecute gcAccept false false s blk).1.laser.ppi_distance
          = s.laser.ppi_distance) := by
  have hlaser : ∀ b s1, (PPI.enable_ppi gcAccept b s1).laser = s1.laser :=
    fun b s1 => enable_ppi_preserves_laser gcAccept b s1
  refine ⟨?_, ?_, ?_⟩
  · simp [PPI.userMCodeExecute, hm, hlaser]
  · intro hlt
    have h0 : truncUnsigned blk.value_p = 0 := by
      unfold truncUnsigned
      have hfl : ⌊blk.value_p⌋ < 1 := by
        rw [Int.floor_lt]
        exact_mod_cast hlt
      omega
    refine ⟨?_, ?_⟩
    · simp [PPI.userMCodeExecute, hm, hlaser, h0]
    · have := enable_ppi_false_none
        { s with laser := { s.laser with
                              ppi := truncUnsigned blk.value_p,
                              ppi_distance := if truncUnsigned blk.value_p ≠ 0
                                then (127 : ℚ) / (5 * truncUnsigned blk.value_p)
                                else s.laser.ppi_distance } }
        (by simpa using hc)
      simp [PPI.userMCodeExecute, hm, h0] at this ⊢
      exact this
  · intro h0
    simp [PPI.userMCodeExecute, hm, hlaser, h0]

/-- Witness for C9 at the fractional rate value 1/2. -/
theorem C9_rate_truncation_witness :
    (PPI.userMCodeExecute gcAccept false false
        (PPI.initState (Handler.base 0) (Handler.base 1))
        { user_mcode := MCode.LaserPPI_Rate, word_p := false,
          value_p := 1 / 2, user_mcode_sync := true }).1.laser.ppi
      = truncUnsigned (1 / 2) :=
  (C9_rate_truncation (PPI.initState (Handler.base 0) (Handler.base 1))
      { user_mcode := MCode.LaserPPI_Rate, word_p := false,
        value_p := 1 / 2, user_mcode_sync := true }
      rfl (by norm_num) (by simp [PPI.initState])).1

/-- Claim C10 counterexample: in check mode the execute handler swallows
every M-code; even with a previously registered execute handler installed
(`prevExec = true`) an unhandled M-code is not chained, so the claim's
"still chaining unhandled mcodes" part is false. -/
theorem C10_counterexample :
    PPI.userMCodeExecute gcAccept true true
        (PPI.initState (Handler.base 0) (Handler.base 1))
        { user_mcode := MCode.other 99, word_p := true, value_p := 3,
          user_mcode_sync := false }
      = (PPI.initState (Handler.base 0) (Handler.base 1), []) := rfl

/-- Claim C10 as amended: in check mode the execute handler changes no
state and produces no calls at all — the three PPI commands are inert, and
unhandled M-codes are not chained either (chaining happens only outside
check mode). -/
theorem C10_check_mode_inert (gc : Nat → Nat → Bool) (prevExec : Bool)
    (s : PPI.State) (blk : ParserBlock) :
    PPI.userMCodeExecute gc prevExec true s blk = (s, []) := rfl

/-- Claim C4: enabling pulsed mode with rate 0 or pulse length 0 (or
setting rate / pulse length to 0 while enabled) completes and leaves the
scheduler hooks uninstalled, with the request flag (`ppi_on`) still
recording the enable request. -/
theorem C4_zero_config_inactive (s : PPI.State) (blk : ParserBlock)
    (hc : s.stepper_wake_up = none ↔ s.stepper_pulse_start = none) :
    (blk.user_mcode = MCode.LaserPPI_Enable → blk.value_p ≠ 0 →
       (s.laser.ppi = 0 ∨ s.laser.pulse_length = 0) →
       (PPI.userMCodeExecute gcAccept false false s blk).1.ppi_on = true
       ∧ (PPI.userMCodeExecute gcAccept false false s blk).1.stepper_wake_up = none
       ∧ (PPI.userMCodeExecute gcAccept false false s blk).1.stepper_pulse_start = none
       ∧ (s.stepper_wake_up = none →
            (PPI.userMCodeExecute gcAccept false false s blk).1.hal = s.hal))
    ∧ (blk.user_mcode = MCode.LaserPPI_Rate → truncUnsigned blk.value_p = 0 →
       (PPI.userMCodeExecute gcAccept false false s blk).1.stepper_wake_up = none
       ∧ (PPI.userMCodeExecute gcAccept false false s blk).1.stepper_pulse_start = none
       ∧ (PPI.userMCodeExecute gcAccept false false s blk).1.ppi_on = s.ppi_on)
    ∧ (blk.user_mcode = MCode.LaserPPI_PulseLength → truncUnsigned blk.value_p = 0 →
       (PPI.userMCodeExecute gcAccept false false s blk).1.stepper_wake_up = none
       ∧ (PPI.userMCodeExecute gcAccept false false s blk).1.stepper_pulse_start = none
       ∧ (PPI.userMCodeExecute gcAccept false false s blk).1.ppi_on = s.ppi_on) := by
  refine ⟨?_, ?_, ?_⟩
  · intro hm hv hz
    have harg : ¬((({ s with ppi_on := decide (blk.value_p ≠ 0) } : PPI.State)).ppi_on = true
        ∧ 0 < s.laser.ppi ∧ 0 < s.laser.pulse_length) := by
      rcases hz with hz | hz <;> simp [hz]
    refine ⟨?_, ?_, ?_, ?_⟩
    · simp [PPI.userMCodeExecute, hm, PPI.enable_ppi, gcAccept, hv]
      split_ifs <;> rfl
    · have := (enable_ppi_false_none { s with ppi_on := decide (blk.value_p ≠ 0) }
        (by simpa using hc)).1
      rcases hz with hz | hz <;>
        simp_all [PPI.userMCodeExecute, hm, hv]
    · have := (enable_ppi_false_none { s with ppi_on := decide (blk.value_p ≠ 0) }
        (by simpa using hc)).2
      rcases hz with hz | hz <;>
        simp_all [PPI.userMCodeExecute, hm, hv]
    · intro hw
      have := enable_ppi_false_id { s with ppi_on := decide (blk.value_p ≠ 0) }
        (by simpa using hw)
      rcases hz with hz | hz <;>
        simp_all [PPI.userMCodeExecute, hm, hv]
  · intro hm h0
    have := enable_ppi_false_none
      { s with laser := { s.laser with
                            ppi := truncUnsigned blk.value_p,
                            ppi_distance := if truncUnsigned blk.value_p ≠ 0
                              then (127 : ℚ) / (5 * truncUnsigned blk.value_p)
                              else s.laser.ppi_distance } }
      (by simpa using hc)
    refine ⟨?_, ?_, ?_⟩
    · simp_all [PPI.userMCodeExecute, hm, h0]
    · simp_all [PPI.userMCodeExecute, hm, h0]
    · simp [PPI.userMCodeExecute, hm, enable_ppi_preserves_ppi_on]
  · intro hm h0
    have := enable_ppi_false_none
      { s with laser := { s.laser with pulse_length := truncUnsigned blk.value_p } }
      (by simpa using hc)
    refine ⟨?_, ?_, ?_⟩
    · simp_all [PPI.userMCodeExecute, hm, h0]
    · simp_all [PPI.userMCodeExecute, hm, h0]
    · simp [PPI.userMCodeExecute, hm, enable_ppi_preserves_ppi_on]

/-- Witness for C4: enabling with the default pulse length but rate 0
leaves the hooks uninstalled while the request flag is set. -/
theorem C4_zero_config_inactive_witness :
    (PPI.userMCodeExecute gcAccept false false
        { (PPI.initState (Handler.base 0) (Handler.base 1)) with
            laser := { ppi := 0, ppi_distance := (127 : ℚ) / 3000, ppi_pos := 0,
                       next_pos := 0, pulse_length := 1500, is_on := false } }
        (enBlk 1)).1.ppi_on = true :=
  ((C4_zero_config_inactive
      { (PPI.initState (Handler.base 0) (Handler.base 1)) with
          laser := { ppi := 0, ppi_distance := (127 : ℚ) / 3000, ppi_pos := 0,
                     next_pos := 0, pulse_length := 1500, is_on := false } }
      (enBlk 1) (by simp [PPI.initState])).1 rfl (by norm_num [enBlk]) (Or.inl rfl)).1

/-- Claim C1: when the program-completed notification fires in non-check
mode the scheduler hooks are removed (pulsed mode Disabled, the saved
handlers restored into the HAL table); and whenever the program-completed
or driver-reset notification fires with a compatible context cached, the
overdrive plugin issues `set_laser_overdrive(0)`. -/
theorem C1_program_completed_safe (p : PPI.State) (o : OVD.State) (cm : Bool)
    (ctx : OVD.SpindlePwm)
    (hc : p.stepper_wake_up = none ↔ p.stepper_pulse_start = none)
    (ho : o.laser = some ctx) :
    ((PPI.onProgramCompleted gcAccept p false true).1.stepper_wake_up = none
     ∧ (PPI.onProgramCompleted gcAccept p false true).1.stepper_pulse_start = none
     ∧ (∀ h, p.stepper_wake_up = some h →
          (PPI.onProgramCompleted gcAccept p false true).1.hal.wake_up = h)
     ∧ (∀ h, p.stepper_pulse_start = some h →
          (PPI.onProgramCompleted gcAccept p false true).1.hal.pulse_start = h))
    ∧ Output.setLaserOverdrive 0 ∈ OVD.onProgramCompleted o cm true
    ∧ Output.setLaserOverdrive 0 ∈ OVD.driverReset o := by
  have h1 := enable_ppi_false_none p hc
  have e : (PPI.onProgramCompleted gcAccept p false true).1
      = PPI.enable_ppi gcAccept false p := by
    simp [PPI.onProgramCompleted]
  refine ⟨⟨?_, ?_, ?_, ?_⟩, ?_, ?_⟩
  · rw [e]; exact h1.1
  · rw [e]; exact h1.2
  · intro h hh
    rw [e]
    unfold PPI.enable_ppi gcAccept
    simp [hh]
  · intro h hh
    rw [e]
    unfold PPI.enable_ppi gcAccept
    rcases hw : p.stepper_wake_up with _ | hw2
    · exact absurd (hc.mp hw) (by simp [hh])
    · simp [hw, hh]
  · simp [OVD.onProgramCompleted, ho]
  · simp [OVD.driverReset, ho]

/-- Witness for C1 at a state with the hooks installed and a compatible
overdrive context cached. -/
theorem C1_program_completed_safe_witness :
    (PPI.onProgramCompleted gcAccept
        { (PPI.initState Handler.hookWakeUp Handler.hookPulseStart) with
            stepper_wake_up := some (Handler.base 0),
            stepper_pulse_start := some (Handler.base 1) }
        false true).1.stepper_wake_up = none
    ∧ Output.setLaserOverdrive 0 ∈
        OVD.onProgramCompleted { laser := some ⟨true, true⟩, active_spindle := none }
          false true :=
  ⟨(C1_program_completed_safe
      { (PPI.initState Handler.hookWakeUp Handler.hookPulseStart) with
          stepper_wake_up := some (Handler.base 0),
          stepper_pulse_start := some (Handler.base 1) }
      { laser := some ⟨true, true⟩, active_spindle := none }
      false ⟨true, true⟩ (by simp) rfl).1.1,
   (C1_program_completed_safe
      { (PPI.initState Handler.hookWakeUp Handler.hookPulseStart) with
          stepper_wake_up := some (Handler.base 0),
          stepper_pulse_start := some (Handler.base 1) }
      { laser := some ⟨true, true⟩, active_spindle := none }
      false ⟨true, true⟩ (by simp) rfl).2.1⟩

/-- Claim C3: the PWM/RPM interception handlers reset both scheduler
distances exactly on an off-to-on transition, track the on/off state as
`level > 0`, and forward every call to the previously installed update
handler with the level value unmodified. -/
theorem C3_power_interception (s : PPI.State) (pwm : Nat) (rpm : ℚ)
    (hp : Handler) (hr : Handler)
    (hpw : s.spindle_update_pwm = some hp)
    (hrp : s.spindle_update_rpm = some hr) :
    ((s.laser.is_on = false → 0 < pwm →
        (PPI.ppiUpdatePWM s pwm).1.laser.ppi_pos = 0
        ∧ (PPI.ppiUpdatePWM s pwm).1.laser.next_pos = 0)
     ∧ (PPI.ppiUpdatePWM s pwm).1.laser.is_on = decide (0 < pwm)
     ∧ Output.fwdUpdatePWM hp pwm ∈ (PPI.ppiUpdatePWM s pwm).2)
    ∧ ((s.laser.is_on = false → 0 < rpm →
        (PPI.ppiUpdateRPM s rpm).1.laser.ppi_pos = 0
        ∧ (PPI.ppiUpdateRPM s rpm).1.laser.next_pos = 0)
     ∧ (PPI.ppiUpdateRPM s rpm).1.laser.is_on = decide (0 < rpm)
     ∧ Output.fwdUpdateRPM hr rpm ∈ (PPI.ppiUpdateRPM s rpm).2) := by
  unfold PPI.ppiUpdatePWM PPI.ppiUpdateRPM
  cases hon : s.laser.is_on <;>
    refine ⟨⟨?_, ?_, ?_⟩, ⟨?_, ?_, ?_⟩⟩ <;>
      simp [hpw, hrp, hon] <;>
        split_ifs <;> simp_all

/-- Witness for C3: an off-to-on PWM transition through base handlers. -/
theorem C3_power_interception_witness :
    (PPI.ppiUpdatePWM
        { (PPI.initState (Handler.base 0) (Handler.base 1)) with
            spindle_update_pwm := some (Handler.base 2),
            spindle_update_rpm := some (Handler.base 3) } 5).1.laser.is_on
      = decide (0 < 5) :=
  ((C3_power_interception
      { (PPI.initState (Handler.base 0) (Handler.base 1)) with
          spindle_update_pwm := some (Handler.base 2),
          spindle_update_rpm := some (Handler.base 3) }
      5 0 (Handler.base 2) (Handler.base 3) rfl rfl).1).2.1

/-- Claim C6: on a driver-selection change, and on a settings change with a
driver cached, the overdrive plugin re-evaluates the driver's capability;
an incompatible driver clears the cached context (silently — the handlers
only chain, they raise no error), after which the overdrive command is no
longer claimed by the plugin's check handler. -/
theorem C6_capability_reevaluation (o : OVD.State) (sp sp0 : OVD.Spindle)
    (hact : o.active_spindle = some sp0) :
    ((OVD.onSpindleSelected o sp true).1.laser = OVD.laserFor sp
     ∧ (OVD.onSpindleSelected o sp true).1.active_spindle = some sp
     ∧ (OVD.onSpindleSelected o sp true).2 = [Output.chainSpindleSelected])
    ∧ ((OVD.onSettingsChanged o true).1.laser = OVD.laserFor sp0
       ∧ (OVD.onSettingsChanged o true).2 = [Output.chainSettingsChanged])
    ∧ (OVD.laserFor sp = none →
        OVD.userMCodeCheck (OVD.onSpindleSelected o sp true).1 none
            MCode.Laser_Overdrive
          = UserMCodeType.Unsupported) := by
  refine ⟨⟨rfl, rfl, rfl⟩, ⟨?_, rfl⟩, ?_⟩
  · simp [OVD.onSettingsChanged, hact]
  · intro hnone
    simp [OVD.userMCodeCheck, OVD.hasCap, OVD.onSpindleSelected, hnone]

/-- Witness for C6 at a non-laser spindle replacing a compatible one. -/
theorem C6_capability_reevaluation_witness :
    (OVD.onSpindleSelected
        { laser := some ⟨true, true⟩,
          active_spindle := some { cap_laser := true, pwm := some ⟨true, true⟩ } }
        { cap_laser := false, pwm := none } true).1.laser
      = OVD.laserFor { cap_laser := false, pwm := none } :=
  (C6_capability_reevaluation
      { laser := some ⟨true, true⟩,
        active_spindle := some { cap_laser := true, pwm := some ⟨true, true⟩ } }
      { cap_laser := false, pwm := none }
      { cap_laser := true, pwm := some ⟨true, true⟩ } rfl).1.1

/-- Claim C5: for the three PPI commands, the dispatch pipeline rejects
with `UnsupportedCommand` exactly when the PPI capability bit is absent and
with `ValueWordMissing` exactly when the `P` word is absent, and never with
`ValueOutOfRange`; for the overdrive command it rejects with
`UnsupportedCommand` exactly when the cached context lacks the capability,
with `ValueWordMissing` exactly when the word is absent, and with
`ValueOutOfRange` exactly when the value is negative; every rejection
leaves the plugin state untouched and produces no driver calls. -/
theorem C5_validation (cap : Bool) (s : PPI.State) (o : OVD.State)
    (blk : ParserBlock) :
    ((blk.user_mcode = MCode.LaserPPI_Enable ∨ blk.user_mcode = MCode.LaserPPI_Rate
        ∨ blk.user_mcode = MCode.LaserPPI_PulseLength) →
      ((PPI.dispatch gcAccept cap false s blk).1 = Status.GcodeUnsupportedCommand
          ↔ cap = false)
      ∧ ((PPI.dispatch gcAccept cap false s blk).1 = Status.GcodeValueWordMissing
          ↔ (cap = true ∧ blk.word_p = false))
      ∧ (PPI.dispatch gcAccept cap false s blk).1 ≠ Status.GcodeValueOutOfRange
      ∧ ((PPI.dispatch gcAccept cap false s blk).1 ≠ Status.OK →
          (PPI.dispatch gcAccept cap false s blk).2.1 = s
          ∧ (PPI.dispatch gcAccept cap false s blk).2.2 = []))
    ∧ (blk.user_mcode = MCode.Laser_Overdrive →
      ((OVD.dispatch o false blk).1 = Status.GcodeUnsupportedCommand
          ↔ OVD.hasCap o = false)
      ∧ ((OVD.dispatch o false blk).1 = Status.GcodeValueWordMissing
          ↔ (OVD.hasCap o = true ∧ blk.word_p = false))
      ∧ ((OVD.dispatch o false blk).1 = Status.GcodeValueOutOfRange
          ↔ (OVD.hasCap o = true ∧ blk.word_p = true ∧ blk.value_p < 0))
      ∧ ((OVD.dispatch o false blk).1 ≠ Status.OK →
          (OVD.dispatch o false blk).2.1 = o
          ∧ (OVD.dispatch o false blk).2.2 = [])) := by
  constructor
  · intro hm
    rcases hm with hm | hm | hm <;>
      (unfold PPI.dispatch PPI.userMCodeCheck PPI.userMCodeValidate
       cases hcap : cap <;> cases hword : blk.word_p <;> simp [hm, hcap, hword])
  · intro hm
    unfold OVD.dispatch OVD.userMCodeCheck OVD.userMCodeValidate OVD.hasCap
    rcases hl : o.laser with _ | p
    · cases hword : blk.word_p <;> simp [hm, hl, hword]
    · cases hrc : p.rpm_controlled <;> cases hword : blk.word_p <;>
        by_cases hv : 0 ≤ blk.value_p <;>
          simp [hm, hl, hrc, hword, hv, not_le, le_of_lt] <;>
            exact not_le.mp hv

/-- Witness for C5: with the PPI capability bit clear the enable command is
rejected as unsupported. -/
theorem C5_validation_witness :
    (PPI.dispatch gcAccept false false
        (PPI.initState (Handler.base 0) (Handler.base 1))
        { user_mcode := MCode.LaserPPI_Enable, word_p := true, value_p := 1,
          user_mcode_sync := false }).1
      = Status.GcodeUnsupportedCommand :=
  ((C5_validation false (PPI.initState (Handler.base 0) (Handler.base 1))
      OVD.initState
      { user_mcode := MCode.LaserPPI_Enable, word_p := true, value_p := 1,
        user_mcode_sync := false }).1 (Or.inl rfl)).1.mpr rfl

/-- Claim C7 counterexample: in the trace `c7trace` the laser is turned on
and one step runs before pulsed mode is disabled and re-enabled with
motion still in flight; the next step event is a pulse decision (hook
installed, laser on, step bits set) yet it observes a non-zero distance
accumulator and a non-zero next trigger distance — and fires.  The
enable command itself never resets the accumulators. -/
theorem C7_counterexample :
    (PPI.sysRun sys0 c7trace).1.ppi.hal.pulse_start = Handler.hookPulseStart
    ∧ (PPI.sysRun sys0 c7trace).1.ppi.laser.is_on = true
    ∧ (PPI.sysRun sys0 c7trace).1.ppi.laser.ppi_pos ≠ 0
    ∧ (PPI.sysRun sys0 c7trace).1.ppi.laser.next_pos ≠ 0
    ∧ countPulse (PPI.sysStep (PPI.sysRun sys0 c7trace).1
        (PPI.Event.step ⟨false, 1, true⟩)).2 = 1 := by
  norm_num [c7trace, sys0, sp0, enBlk, PPI.sysRun, PPI.sysStep, PPI.initState,
    PPI.onSpindleSelected, PPI.userMCodeExecute, PPI.enable_ppi, gcAccept,
    PPI.stepperWakeUp, PPI.stepperPulseStartPPI, PPI.ppiUpdatePWM]
  simp
  norm_num

/-- Claim C7 as amended: the disable→enable command pair does not itself
reset the accumulators; they are guaranteed to be 0 at the first pulse
decision only when a stepper wake-up (motion-segment start) happens after
the re-enable and before the first step event.  With positive rate and
pulse length, disable→enable→wake-up leaves both accumulators at 0 with
the scheduler hooks installed, so the first subsequent step event starts
its pulse decision from 0. -/
theorem C7_reset_needs_wakeup (s : PPI.Sys)
    (hrate : 0 < s.ppi.laser.ppi) (hlen : 0 < s.ppi.laser.pulse_length) :
    (PPI.sysRun s [PPI.Event.mcode (enBlk 0), PPI.Event.mcode (enBlk 1),
        PPI.Event.wakeUp]).1.ppi.laser.ppi_pos = 0
    ∧ (PPI.sysRun s [PPI.Event.mcode (enBlk 0), PPI.Event.mcode (enBlk 1),
        PPI.Event.wakeUp]).1.ppi.laser.next_pos = 0
    ∧ (PPI.sysRun s [PPI.Event.mcode (enBlk 0), PPI.Event.mcode (enBlk 1),
        PPI.Event.wakeUp]).1.ppi.hal.wake_up = Handler.hookWakeUp
    ∧ (PPI.sysRun s [PPI.Event.mcode (enBlk 0), PPI.Event.mcode (enBlk 1),
        PPI.Event.wakeUp]).1.ppi.hal.pulse_start = Handler.hookPulseStart := by
  cases hw : s.ppi.stepper_wake_up <;>
    simp [PPI.sysRun, PPI.sysStep, PPI.userMCodeExecute, PPI.enable_ppi, gcAccept,
      PPI.stepperWakeUp, enBlk, hw, hrate, hlen]

/-- Witness for C7 as amended, at the initial system state. -/
theorem C7_reset_needs_wakeup_witness :
    (PPI.sysRun sys0 [PPI.Event.mcode (enBlk 0), PPI.Event.mcode (enBlk 1),
        PPI.Event.wakeUp]).1.ppi.laser.ppi_pos = 0 :=
  (C7_reset_needs_wakeup sys0 (by norm_num [sys0, PPI.initState])
      (by norm_num [sys0, PPI.initState])).1

/-- Claim C8 as amended: the stepper wake-up/pulse-start hooks satisfy the
full discipline — install followed by remove restores the exact prior
handler table, repeated install is a no-op, and every decorated handler
forwards to the handler saved at installation; the spindle PWM/RPM update
hooks forward to the saved handler and are installed correctly the first
time a driver is selected.  (Repeated selection of the same driver,
however, self-chains them: see the counterexample.) -/
theorem C8_hook_discipline (s : PPI.State) (sp : PPI.Spindle)
    (ev : PPI.StepperEv) (h : Handler) :
    (s.stepper_wake_up = none → s.stepper_pulse_start = none →
       PPI.enable_ppi gcAccept false (PPI.enable_ppi gcAccept true s) = s)
    ∧ PPI.enable_ppi gcAccept true (PPI.enable_ppi gcAccept true s)
        = PPI.enable_ppi gcAccept true s
    ∧ (s.stepper_wake_up = some h → (PPI.stepperWakeUp s).2 = [Output.fwdWakeUp h])
    ∧ (s.stepper_pulse_start = some h →
         Output.fwdPulseStart h ∈ (PPI.stepperPulseStartPPI s ev).2)
    ∧ (∀ v, s.spindle_update_pwm = some h →
         Output.fwdUpdatePWM h v ∈ (PPI.ppiUpdatePWM s v).2)
    ∧ (∀ v, s.spindle_update_rpm = some h →
         Output.fwdUpdateRPM h v ∈ (PPI.ppiUpdateRPM s v).2)
    ∧ (sp.cap_laser = true → sp.has_pulse_on = true → sp.update_pwm = some h →
         (PPI.onSpindleSelected s sp true).1.spindle_update_pwm = some h
         ∧ (PPI.onSpindleSelected s sp true).2.1.update_pwm
             = some Handler.hookUpdatePWM) := by
  refine ⟨?_, ?_, ?_, ?_, ?_, ?_, ?_⟩
  · intro h1 h2
    unfold PPI.enable_ppi gcAccept
    simp [h1, h2]
    nth_rewrite 2 [← h2]
    rw [← h1]
  · unfold PPI.enable_ppi gcAccept
    cases hw : s.stepper_wake_up <;> simp [hw]
  · intro hh
    simp [PPI.stepperWakeUp, hh]
  · intro hh
    unfold PPI.stepperPulseStartPPI
    cases hon : s.laser.is_on <;>
      cases hnb : ev.new_block <;>
        cases hb : ev.step_bits <;>
          simp [hh, hon, hnb, hb] <;>
            split_ifs <;> simp
  · intro v hh
    unfold PPI.ppiUpdatePWM
    simp [hh]
  · intro v hh
    unfold PPI.ppiUpdateRPM
    simp [hh]
  · intro hcap hpo hup
    unfold PPI.onSpindleSelected
    cases hrm : sp.update_rpm <;> simp [hcap, hpo, hup, hrm]

/-- Witness for C8 as amended: install/remove round-trip from the initial
state. -/
theorem C8_hook_discipline_witness :
    PPI.enable_ppi gcAccept false
        (PPI.enable_ppi gcAccept true (PPI.initState (Handler.base 0) (Handler.base 1)))
      = PPI.initState (Handler.base 0) (Handler.base 1) :=
  (C8_hook_discipline (PPI.initState (Handler.base 0) (Handler.base 1)) sp0
      ⟨true, 1, true⟩ (Handler.base 0)).1 rfl rfl

/-- Claim C8 counterexample: selecting the same compatible spindle twice
chains the PWM update hook to itself — after the second selection the
saved "previous" handler is the decorated hook, and a PWM update call
forwards to the decorated hook itself. -/
theorem C8_counterexample :
    (PPI.onSpindleSelected
        (PPI.onSpindleSelected (PPI.initState (Handler.base 0) (Handler.base 1))
            sp0 false).1
        (PPI.onSpindleSelected (PPI.initState (Handler.base 0) (Handler.base 1))
            sp0 false).2.1
        false).1.spindle_update_pwm = some Handler.hookUpdatePWM
    ∧ (PPI.onSpindleSelected
        (PPI.onSpindleSelected (PPI.initState (Handler.base 0) (Handler.base 1))
            sp0 false).1
        (PPI.onSpindleSelected (PPI.initState (Handler.base 0) (Handler.base 1))
            sp0 false).2.1
        false).2.1.update_pwm = some Handler.hookUpdatePWM
    ∧ Output.fwdUpdatePWM Handler.hookUpdatePWM 5 ∈
        (PPI.ppiUpdatePWM
          (PPI.onSpindleSelected
            (PPI.onSpindleSelected (PPI.initState (Handler.base 0) (Handler.base 1))
                sp0 false).1
            (PPI.onSpindleSelected (PPI.initState (Handler.base 0) (Handler.base 1))
                sp0 false).2.1
            false).1 5).2 := by
  simp [PPI.onSpindleSelected, PPI.ppiUpdatePWM, sp0, PPI.initState]

end GrblLaser
